import Mathlib

set_option maxRecDepth 2000

/-!
Verification of the bank-statement-analyzer core against its source.

Shallow embedding conventions:
* Python floats are embedded as exact rationals.
* The SQLAlchemy-backed pattern table is embedded as a list of records in
  insertion order; a query with a filter and no explicit order returns the
  first matching element in that order, and an insert appends.
* pandas timestamps are embedded as a day ordinal together with the
  string key of their calendar month, so that a difference of timestamps
  in days is ordinal subtraction and grouping by month uses the key.
-/

/-! ### Generic helpers -/

/-- Boolean list-prefix test, auxiliary to the substring test. -/
def isPrefixL : List Char → List Char → Bool
  | [], _ => true
  | _ :: _, [] => false
  | a :: as, b :: bs => a == b && isPrefixL as bs

/-- Boolean contiguous-substring test on char lists; embeds the Python
test of membership of one string in another. -/
def isSubL : List Char → List Char → Bool
  | pat, [] => pat.isEmpty
  | pat, c :: t => isPrefixL pat (c :: t) || isSubL pat t

/-- String form of the substring test: the first string occurs
contiguously inside the second. -/
def isSubStr (pat hay : String) : Bool := isSubL pat.toList hay.toList

/-- Lowercasing by characters; embeds the Python lower method on the
ASCII inputs of this program (and is kernel-computable, unlike the
position-based library version). -/
def pyLower (s : String) : String := String.mk (s.toList.map Char.toLower)

/-- Insert an element into a list that is sorted with respect to the
boolean comparison, keeping it stable. -/
def insSorted (le : α → α → Bool) (x : α) : List α → List α
  | [] => [x]
  | y :: t => if le x y then x :: y :: t else y :: insSorted le x t

/-- Stable insertion sort with respect to a boolean comparison. -/
def isort (le : α → α → Bool) : List α → List α
  | [] => []
  | x :: t => insSorted le x (isort le t)

/-- Fuel-driven form of the deduplication below; the fuel is only a
structural termination device and is always at least the list length. -/
def uniqueFirstAux : Nat → List String → List String
  | 0, _ => []
  | _, [] => []
  | Nat.succ n, x :: t => x :: uniqueFirstAux n (t.filter (fun y => decide ¬(y = x)))

/-- Deduplicate a list keeping the first occurrence of each element;
embeds the order-preserving unique operation of pandas. -/
def uniqueFirst (l : List String) : List String := uniqueFirstAux l.length l

/-- Arithmetic mean of a list of rationals (the lists it is applied to
in this development are nonempty). -/
def qmean (l : List ℚ) : ℚ := l.sum / l.length

/-- Day gaps between consecutive entries of a list of day ordinals;
embeds the pandas difference of a sorted date series, with the leading
undefined entry dropped. -/
def gaps : List Int → List Int
  | a :: b :: t => (b - a) :: gaps (b :: t)
  | _ => []

/-- Numeric value of a list of decimal digit characters. -/
def digitsVal (cs : List Char) : Nat :=
  cs.foldl (fun a c => a * 10 + (c.toNat - 48)) 0

/-! ### Pattern registry (database.py) -/

/-- Embedding of the learned-pattern table row of database.py: user id,
pattern text, target category, usage counter, confidence and the
update timestamp (an abstract clock value). -/
structure LearnedPattern where
  user_id : String
  pattern : String
  category : String
  times_used : Nat
  confidence : ℚ
  updated_at : Nat
deriving DecidableEq

/-- The row filter used by save_learned_pattern: same user and identical
pattern text. -/
def patKey (uid pat : String) (p : LearnedPattern) : Bool :=
  decide (p.user_id = uid) && decide (p.pattern = pat)

/-- Replace the first row matched by patKey with its bumped version
(times_used incremented, updated_at refreshed); other rows untouched. -/
def bumpFirst (uid pat : String) (now : Nat) : List LearnedPattern → List LearnedPattern
  | [] => []
  | p :: rest =>
    if patKey uid pat p then
      { p with times_used := p.times_used + 1, updated_at := now } :: rest
    else p :: bumpFirst uid pat now rest

/-- Embedding of database.save_learned_pattern: if a row with the same
user and pattern text exists, increment its times_used and refresh its
updated_at (the category argument is not used on this path); otherwise
insert a fresh row with times_used 1 and confidence 1 (the column
defaults of the model). -/
def save_learned_pattern (db : List LearnedPattern) (uid pat cat : String) (now : Nat) :
    List LearnedPattern :=
  if db.any (patKey uid pat) then bumpFirst uid pat now db
  else db ++ [{ user_id := uid, pattern := pat, category := cat,
                times_used := 1, confidence := 1, updated_at := now }]

/-- Comparison used by get_user_patterns: updated_at descending. -/
def updDesc (a b : LearnedPattern) : Bool := decide (b.updated_at ≤ a.updated_at)

/-- Embedding of database.get_user_patterns: the user's rows ordered by
updated_at descending. -/
def get_user_patterns (db : List LearnedPattern) (uid : String) : List LearnedPattern :=
  isort updDesc (db.filter (fun p => decide (p.user_id = uid)))

/-- Embedding of the pattern-training handler of streamlit_app_v2.py:
the save call is issued only when the entered pattern text is nonempty
(Python truthiness of the string); otherwise an error message is shown
and the registry is left alone. -/
def ui_add_pattern (db : List LearnedPattern) (uid txt cat : String) (now : Nat) :
    List LearnedPattern :=
  if txt = "" then db else save_learned_pattern db uid txt cat now

/-- Modelled from the spec: the spec asserts that learned patterns are
scanned in insertion order; since save_learned_pattern appends new rows,
insertion order is list order of the user's rows, with no reordering.
This definition follows the spec's words and exists only to be compared
with get_user_patterns, which the code actually uses. -/
def patternsInInsertionOrder (db : List LearnedPattern) (uid : String) : List LearnedPattern :=
  db.filter (fun p => decide (p.user_id = uid))

/-! ### Categorization engine (streamlit_app_v2.py) -/

/-- Embedding of the CATEGORIES table of streamlit_app_v2.py, in its
declaration order (Python dicts preserve insertion order). -/
def CATEGORIES : List (String × List String) :=
  [(("MCA_DEBT"), [("daily ach"), ("merchant cash"), ("fundbox"), ("kabbage"), ("ondeck"),
      ("bluevine"), ("credibly"), ("rapid finance"), ("forward financing"), ("clearco"),
      ("shopify capital")]),
   (("LOAN_PAYMENT"), [("loan pmt"), ("loan payment"), ("sba loan"), ("term loan"),
      ("lending club"), ("prosper"), ("funding circle")]),
   (("RENT"), [("rent"), ("lease"), ("property mgmt"), ("landlord")]),
   (("PAYROLL"), [("payroll"), ("gusto"), ("adp"), ("paychex"), ("quickbooks payroll"),
      ("square payroll")]),
   (("UTILITIES"), [("electric"), ("gas bill"), ("water bill"), ("utility"), ("pge"),
      ("edison"), ("comcast"), ("att"), ("verizon")]),
   (("INSURANCE"), [("insurance"), ("geico"), ("allstate"), ("progressive"), ("state farm")]),
   (("REVENUE"), [("deposit"), ("payment received"), ("stripe"), ("square"), ("paypal"),
      ("shopify"), ("amazon payout"), ("pos deposit")]),
   (("TRANSFER_IN"), [("transfer from"), ("xfer from"), ("mobile deposit")]),
   (("TRANSFER_OUT"), [("transfer to"), ("xfer to"), ("wire out")]),
   (("TAX"), [("irs"), ("tax payment"), ("estimated tax"), ("state tax"), ("franchise tax")]),
   (("CREDIT_CARD"), [("credit card"), ("amex"), ("chase card"), ("visa payment"),
      ("mastercard")]),
   (("OTHER_EXPENSE"), [])]

/-- The closed category enumeration: the keys of CATEGORIES. -/
def categoryNames : List String := CATEGORIES.map Prod.fst

/-- The matcher of the learned-pattern loop of categorize_transaction:
the stored pattern text, lowercased, occurs in the lowercased description. -/
def learnedMatch (descLower : String) (p : LearnedPattern) : Bool :=
  isSubStr (pyLower p.pattern) descLower

/-- First matching learned pattern, as the early-returning loop of
categorize_transaction. -/
def learnedLookup (ps : List LearnedPattern) (descLower : String) : Option (String × ℚ) :=
  match ps.find? (learnedMatch descLower) with
  | some p => some (p.category, p.confidence)
  | none => none

/-- First matching default category, as the nested loops over CATEGORIES
of categorize_transaction; a hit yields confidence 1. -/
def defaultLookup (descLower : String) : Option (String × ℚ) :=
  match CATEGORIES.find? (fun kv => kv.2.any (fun w => isSubStr w descLower)) with
  | some kv => some (kv.1, 1)
  | none => none

/-- Embedding of categorize_transaction of streamlit_app_v2.py: learned
patterns first, then default keyword categories, then the sign-based
fallback with confidence one half. -/
def categorize_transaction (description : String) (amount : ℚ)
    (user_patterns : List LearnedPattern) : String × ℚ :=
  let d := pyLower description
  match learnedLookup user_patterns d with
  | some r => r
  | none =>
    match defaultLookup d with
    | some r => r
    | none => if 0 < amount then (("REVENUE"), (1 / 2 : ℚ)) else (("OTHER_EXPENSE"), (1 / 2 : ℚ))

/-! ### Health score (streamlit_app_v2.py, calculate_score) -/

/-- Embedding of the transaction dicts scored by calculate_score of
streamlit_app_v2.py: the fields present after categorization. -/
structure V2Txn where
  date : String
  description : String
  amount : ℚ
  category : String
  category_confidence : ℚ
deriving DecidableEq

/-- The debt categories of calculate_score. -/
def debt_categories : List String := [("MCA_DEBT"), ("LOAN_PAYMENT"), ("CREDIT_CARD")]

/-- Sum of the positive amounts, the revenue aggregate of calculate_score. -/
def revenueOf (ts : List V2Txn) : ℚ :=
  ((ts.filter (fun t => decide (0 < t.amount))).map (fun t => t.amount)).sum

/-- Absolute sum of the negative amounts, the expense aggregate. -/
def expensesOf (ts : List V2Txn) : ℚ :=
  |((ts.filter (fun t => decide (t.amount < 0))).map (fun t => t.amount)).sum|

/-- Absolute sum of the amounts whose category lies in debt_categories. -/
def debtOf (ts : List V2Txn) : ℚ :=
  |((ts.filter (fun t => debt_categories.contains t.category)).map (fun t => t.amount)).sum|

/-- Deduction of the revenue-to-expense step of calculate_score. -/
def ratioDeduction (ts : List V2Txn) : Int :=
  if 0 < expensesOf ts then
    if revenueOf ts / expensesOf ts < 1 then 30
    else if revenueOf ts / expensesOf ts < 3 / 2 then 15
    else 0
  else 0

/-- Deduction of the debt-burden step of calculate_score: the debt ratio
is debt over revenue when revenue is positive, and 1 otherwise. -/
def debtDeduction (ts : List V2Txn) : Int :=
  let r : ℚ := if 0 < revenueOf ts then debtOf ts / revenueOf ts else 1
  if 3 / 10 < r then 25 else if 3 / 20 < r then 12 else 0

/-- Contribution of the debt-burden step to the final score (the step
only ever subtracts from the running score). -/
def debt_burden_score (ts : List V2Txn) : Int := -debtDeduction ts

/-- Mean amount of the full list. -/
def amountMean (ts : List V2Txn) : ℚ := qmean (ts.map (fun t => t.amount))

/-- Sample variance (denominator length - 1) of the amounts, the square
of the pandas standard deviation with its default degrees of freedom. -/
def amountVar (ts : List V2Txn) : ℚ :=
  ((ts.map (fun t => t.amount)).map (fun x => (x - amountMean ts) ^ 2)).sum /
    ((ts.length : ℚ) - 1)

/-- Deduction of the volatility step of calculate_score. For fewer than
two transactions the pandas sample standard deviation is undefined and
every comparison with it is false, so the deduction is 0. For two or
more, a comparison of the nonnegative standard deviation with the
nonnegative bound k times the absolute mean is equivalent to the
comparison of the variance with k squared times the squared mean, which
keeps the embedding inside the rationals. -/
def volDeduction (ts : List V2Txn) : Int :=
  if 2 ≤ ts.length then
    if 4 * amountMean ts ^ 2 < amountVar ts then 20
    else if amountMean ts ^ 2 < amountVar ts then 10
    else 0
  else 0

/-- The NSF screen of calculate_score: a lowercased description contains
one of the three incident substrings. -/
def nsfHit (t : V2Txn) : Bool :=
  isSubStr ("nsf") (pyLower t.description) || isSubStr ("overdraft") (pyLower t.description) ||
    isSubStr ("insufficient") (pyLower t.description)

/-- Deduction of the NSF step: five points per incident, capped at 15. -/
def nsfDeduction (ts : List V2Txn) : Int :=
  min ((ts.filter nsfHit).length * 5 : Int) 15

/-- Deduction of the negative-share step: 10 points when more than
seventy percent of the transactions are debits. -/
def negDeduction (ts : List V2Txn) : Int :=
  if ((ts.filter (fun t => decide (t.amount < 0))).length : ℚ) > (ts.length : ℚ) * (7 / 10) then 10
  else 0

/-- Embedding of calculate_score of streamlit_app_v2.py: 0 on the empty
list, otherwise 100 minus the five deductions, clamped to 0..100. -/
def calculate_score (ts : List V2Txn) : Int :=
  if ts.isEmpty then 0
  else
    max 0 (min 100
      (100 - ratioDeduction ts - debtDeduction ts - volDeduction ts - nsfDeduction ts -
        negDeduction ts))

/-! ### Normalizer (streamlit_app_v2.py, extract_transactions_from_pdf) -/

/-- Character class of the date regular expression of the extractor: the
class written there contains the digits together with the literal
characters brace, comma, brace, slash, closing parenthesis and star
(braces spelled by code 123 and 125). -/
def dateClassC (c : Char) : Bool :=
  c.isDigit || c.toNat == 123 || c == ',' || c.toNat == 125 || c == '/' || c == ')' || c == '*'

/-- Tail of a date match after its leading digits: a slash, one class
character, then greedily up to four literal d characters. -/
def dateTail : List Char → Option (List Char)
  | '/' :: c :: rest =>
    if dateClassC c then some ('/' :: c :: (rest.takeWhile (fun x => x == 'd')).take 4)
    else none
  | _ => none

/-- Date match attempt at one position: one or two leading digits tried
greedily (two first, backtracking to one), then the tail. -/
def matchDateAt : List Char → Option (List Char)
  | c1 :: c2 :: rest =>
    if c1.isDigit && c2.isDigit then
      match dateTail rest with
      | some m => some (c1 :: c2 :: m)
      | none =>
        match dateTail (c2 :: rest) with
        | some m => some (c1 :: m)
        | none => none
    else if c1.isDigit then
      match dateTail (c2 :: rest) with
      | some m => some (c1 :: m)
      | none => none
    else none
  | _ => none

/-- Leftmost date match on a line, as the regex search of the extractor. -/
def dateSearch : List Char → Option (List Char)
  | [] => none
  | c :: t =>
    match matchDateAt (c :: t) with
    | some m => some m
    | none => dateSearch t

/-- Character class of the amount regular expression: comma, dot, digit. -/
def amtClass (c : Char) : Bool := c == ',' || c == '.' || c.isDigit

/-- Validity of a split point inside an amount run: a dot followed by two
digits, with the preceding part nonempty. -/
def dotOKAt (r : List Char) (k : Nat) : Bool :=
  decide (1 ≤ k) && r.get? k == some '.' &&
    (match r.get? (k + 1) with | some c => c.isDigit | none => false) &&
    (match r.get? (k + 2) with | some c => c.isDigit | none => false)

/-- Largest valid split point of an amount run, giving the greedy match
of the amount regular expression. -/
def lastDot (r : List Char) : Option Nat :=
  (List.range r.length).foldl (fun acc k => if dotOKAt r k then some k else acc) none

/-- Fuel-driven scan for the amount captures; the fuel is only a
structural termination device and is always at least the list length. -/
def findAmountsAux : Nat → List Char → List String
  | 0, _ => []
  | _, [] => []
  | Nat.succ n, '$' :: rest =>
    let r := rest.takeWhile amtClass
    match lastDot r with
    | some k => String.mk (r.take (k + 3)) :: findAmountsAux n (rest.drop (k + 3))
    | none => findAmountsAux n rest
  | Nat.succ n, _ :: t => findAmountsAux n t

/-- All amount captures on a line, scanning left to right without
overlap: at each dollar sign, the maximal run of amount-class characters
is matched greedily so that it ends in a dot and two digits; on success
the capture is recorded and scanning resumes after it. -/
def findAmounts (cs : List Char) : List String := findAmountsAux cs.length cs

/-- Remove the comma characters of a string, as the replace call before
the float conversion. -/
def stripCommas (s : String) : String := String.mk (s.toList.filter (fun c => decide ¬(c = ',')))

/-- Embedding of the Python float conversion on the strings producible
here (digits and dots): at most one dot, at least one digit-bearing
side, value read in decimal; anything else raises, embedded as none. -/
def pyFloat? (s : String) : Option ℚ :=
  let cs := s.toList
  let ip := cs.takeWhile (fun c => decide ¬(c = '.'))
  let rest := cs.dropWhile (fun c => decide ¬(c = '.'))
  match rest with
  | [] => if !ip.isEmpty && ip.all Char.isDigit then some ((digitsVal ip : ℚ)) else none
  | _ :: fp =>
    if (!ip.isEmpty || !fp.isEmpty) && ip.all Char.isDigit && fp.all Char.isDigit then
      some ((digitsVal ip : ℚ) + (digitsVal fp : ℚ) / (10 : ℚ) ^ fp.length)
    else none

/-- Character class stripped from a line to form its description:
digits, whitespace, slash, dollar, comma, dot, minus. -/
def descStripClass (c : Char) : Bool :=
  c.isDigit || c.isWhitespace || c == '/' || c == '$' || c == ',' || c == '.' || c == '-'

/-- Description of a line: the strip class removed everywhere (the
following collapse of runs of blanks and the final strip in the source
are the identity because the class already removed all whitespace). -/
def descOf (line : String) : String :=
  String.mk (line.toList.filter (fun c => !descStripClass c))

deriving instance DecidableEq for Except

/-- A transaction produced by the extractor. -/
structure RawTxn where
  date : String
  description : String
  amount : ℚ
deriving DecidableEq

/-- Processing of one line of the extractor: requires a date match and a
nonempty amount list, forms the description and keeps the line only when
it is longer than three characters, then converts the last amount
capture; a failing conversion is the exception path of the source,
embedded as the error case. -/
def processLine (line : String) : Except Unit (Option RawTxn) :=
  match dateSearch line.toList with
  | none => Except.ok none
  | some d =>
    match (findAmounts line.toList).getLast? with
    | none => Except.ok none
    | some a =>
      let desc := descOf line
      if 3 < desc.length then
        match pyFloat? (stripCommas a) with
        | some q => Except.ok (some { date := String.mk d, description := String.mk (desc.toList.take 50), amount := q })
        | none => Except.error ()
      else Except.ok none

/-- Embedding of the extraction loop: lines processed in order, discarded
lines skipped; the exception path aborts the loop and the transactions
collected so far are returned. -/
def extract_transactions (lines : List String) : List RawTxn :=
  match lines with
  | [] => []
  | l :: ls =>
    match processLine l with
    | Except.ok (some t) => t :: extract_transactions ls
    | Except.ok none => extract_transactions ls
    | Except.error _ => []

/-! ### Demo-app analytics (streamlit_app.py) -/

/-- Embedding of a pandas timestamp: its day ordinal (so differences in
days are ordinal subtraction) and the string key of its calendar month
(the period the source groups by). -/
structure Day where
  ord : Int
  ym : String
deriving DecidableEq

/-- Embedding of one row of the demo-data frame of streamlit_app.py. -/
structure DemoTxn where
  date : Day
  description : String
  amount : ℚ
  balance : ℚ
  category : String
  is_debit : Bool
  is_true_revenue : Bool
  is_debt_payment : Bool
  debt_type : Option String
  confidence : ℚ
deriving DecidableEq

/-- Ascending comparison on day ordinals. -/
def intLe (a b : Int) : Bool := decide (a ≤ b)

/-- One row of the debt summary (numeric fields kept as numbers; the
source renders some of them as dollar strings, a presentation concern). -/
structure DebtRow where
  lender : String
  grp : String
  first_date : Int
  last_date : Int
  count : Nat
  total_amount : ℚ
  avg_amount : ℚ
  frequency : String
  est_monthly : ℚ
deriving DecidableEq

/-- Row of calculate_debt_summary for one lender: its transactions among
the debt payments, absolute amounts, dates sorted ascending; with at
least two dates the mean consecutive gap selects daily (at most 2),
weekly (at most 9) or monthly, scaling the mean absolute amount by 22, 4
or 1; with fewer the frequency defaults to monthly. -/
def debtRowFor (debt_df : List DemoTxn) (lender : String) : DebtRow :=
  let lender_df := debt_df.filter (fun t => decide (t.description = lender))
  let amounts := lender_df.map (fun t => |t.amount|)
  let dates := isort intLe (lender_df.map (fun t => t.date.ord))
  let fe : String × ℚ :=
    if 2 ≤ dates.length then
      let avg := qmean ((gaps dates).map (fun n => (n : ℚ)))
      if avg ≤ 2 then (("daily"), qmean amounts * 22)
      else if avg ≤ 9 then (("weekly"), qmean amounts * 4)
      else (("monthly"), qmean amounts)
    else (("monthly"), qmean amounts)
  let dt := match lender_df.head? with
    | some t => t.debt_type
    | none => none
  { lender := lender,
    grp := if dt == some ("mca") then ("Merchant Cash Advance") else ("Term Loan"),
    first_date := (dates.head?).getD 0,
    last_date := (dates.getLast?).getD 0,
    count := lender_df.length,
    total_amount := amounts.sum,
    avg_amount := qmean amounts,
    frequency := fe.1,
    est_monthly := fe.2 }

/-- Embedding of calculate_debt_summary of streamlit_app.py: restrict to
debt payments, then one row per distinct description in first-occurrence
order (an empty debt set yields the empty summary either way). -/
def calculate_debt_summary (df : List DemoTxn) : List DebtRow :=
  let debt_df := df.filter (fun t => t.is_debt_payment)
  (uniqueFirst (debt_df.map (fun t => t.description))).map (debtRowFor debt_df)

/-- Ascending comparison on month keys (string order). -/
def strLe (a b : String) : Bool := !decide (b < a)

/-- One row of the monthly summary, numeric fields kept as numbers. -/
structure MonthRow where
  month : String
  starting_balance : ℚ
  num_deposits : Nat
  total_deposits : ℚ
  true_revenue : ℚ
  num_withdrawals : Nat
  total_withdrawals : ℚ
  mca_debits : ℚ
  holdback_pct : ℚ
  ending_balance : ℚ
  avg_balance : ℚ
  neg_days : Nat
deriving DecidableEq

/-- Row of calculate_monthly_summary for one month key: totals over the
month's rows; the holdback percentage is MCA debits over true revenue
times 100 when the true revenue is positive and 0 otherwise. -/
def monthRowFor (df : List DemoTxn) (month : String) : MonthRow :=
  let month_df := df.filter (fun t => decide (t.date.ym = month))
  let deposits := month_df.filter (fun t => decide (0 < t.amount))
  let withdrawals := month_df.filter (fun t => decide (t.amount < 0))
  let true_rev := month_df.filter (fun t => t.is_true_revenue)
  let mca := month_df.filter (fun t => t.debt_type == some ("mca"))
  let total_true_revenue := (true_rev.map (fun t => t.amount)).sum
  let total_mca := |(mca.map (fun t => t.amount)).sum|
  let balances := month_df.map (fun t => t.balance)
  { month := month,
    starting_balance := (balances.head?).getD 0,
    num_deposits := deposits.length,
    total_deposits := (deposits.map (fun t => t.amount)).sum,
    true_revenue := total_true_revenue,
    num_withdrawals := withdrawals.length,
    total_withdrawals := |(withdrawals.map (fun t => t.amount)).sum|,
    mca_debits := total_mca,
    holdback_pct := if 0 < total_true_revenue then total_mca / total_true_revenue * 100 else 0,
    ending_balance := (balances.getLast?).getD 0,
    avg_balance := if balances.isEmpty then 0 else qmean balances,
    neg_days := (balances.filter (fun b => decide (b < 0))).length }

/-- Embedding of calculate_monthly_summary of streamlit_app.py: one row
per distinct month key, sorted ascending. -/
def calculate_monthly_summary (df : List DemoTxn) : List MonthRow :=
  (isort strLe (uniqueFirst (df.map (fun t => t.date.ym)))).map (monthRowFor df)

/-- The debt group of one description: the debt payments of the set
whose description equals it (the grouping of calculate_debt_summary). -/
def debtGroup (df : List DemoTxn) (lender : String) : List DemoTxn :=
  (df.filter (fun t => t.is_debt_payment)).filter (fun t => decide (t.description = lender))

/-- Mean consecutive day-gap of a group after sorting its dates
ascending, the quantity the frequency thresholds are compared with. -/
def meanGap (grp : List DemoTxn) : ℚ :=
  qmean ((gaps (isort intLe (grp.map (fun t => t.date.ord)))).map (fun n => (n : ℚ)))

/-- Mean absolute amount of a group, the base of the estimated monthly
amount. -/
def meanAbs (grp : List DemoTxn) : ℚ := qmean (grp.map (fun t => |t.amount|))

/-- The single debt transaction of the C4 instance. -/
def oneDebtTxn : DemoTxn :=
  { date := { ord := 0, ym := ("2026-01") }, description := ("LIBERTAS FUNDING"),
    amount := -450, balance := 1000, category := ("Debt Repayment - MCA"), is_debit := true,
    is_true_revenue := false, is_debt_payment := true, debt_type := some ("mca"),
    confidence := 1 }

/-- The row the debt summary produces for the C4 instance. -/
def oneDebtRow : DebtRow :=
  { lender := ("LIBERTAS FUNDING"), grp := ("Merchant Cash Advance"), first_date := 0,
    last_date := 0, count := 1, total_amount := 450, avg_amount := 450,
    frequency := ("monthly"), est_monthly := 450 }

/-- The two-payment FUNDBOX instance of the C6 witness: two debits of
450 fourteen days apart. -/
def twoDebtTxns : List DemoTxn :=
  [{ date := { ord := 0, ym := ("2026-01") }, description := ("FUNDBOX"), amount := -450,
     balance := 1000, category := ("Debt Repayment - MCA"), is_debit := true,
     is_true_revenue := false, is_debt_payment := true, debt_type := some ("mca"),
     confidence := 1 },
   { date := { ord := 14, ym := ("2026-01") }, description := ("FUNDBOX"), amount := -450,
     balance := 550, category := ("Debt Repayment - MCA"), is_debit := true,
     is_true_revenue := false, is_debt_payment := true, debt_type := some ("mca"),
     confidence := 1 }]

/-- The row the debt summary produces for the C6 witness instance: the
mean gap of 14 days exceeds 9, so the frequency is monthly and the
estimate is the mean absolute amount. -/
def twoDebtRow : DebtRow :=
  { lender := ("FUNDBOX"), grp := ("Merchant Cash Advance"), first_date := 0, last_date := 14,
    count := 2, total_amount := 900, avg_amount := 450, frequency := ("monthly"),
    est_monthly := 450 }

/-- The one-month instance of the C8 theorems: one true-revenue deposit
of 1000 and one MCA debit of 450 in the same month. -/
def oneMonthTxns : List DemoTxn :=
  [{ date := { ord := 0, ym := ("2026-01") }, description := ("STRIPE TRANSFER"),
     amount := 1000, balance := 1000, category := ("Revenue"), is_debit := false,
     is_true_revenue := true, is_debt_payment := false, debt_type := none, confidence := 1 },
   { date := { ord := 1, ym := ("2026-01") }, description := ("LIBERTAS FUNDING"),
     amount := -450, balance := 550, category := ("Debt Repayment - MCA"), is_debit := true,
     is_true_revenue := false, is_debt_payment := true, debt_type := some ("mca"),
     confidence := 1 }]

/-- The monthly-summary row of the C8 witness instance. -/
def oneMonthRow : MonthRow :=
  { month := ("2026-01"), starting_balance := 1000, num_deposits := 1, total_deposits := 1000,
    true_revenue := 1000, num_withdrawals := 1, total_withdrawals := 450, mca_debits := 450,
    holdback_pct := 45, ending_balance := 550, avg_balance := 775, neg_days := 0 }

/-- The revenue-free month of the C8 counterexample: a single MCA debit
and no true revenue. -/
def noRevenueTxn : DemoTxn :=
  { date := { ord := 0, ym := ("2026-02") }, description := ("LIBERTAS FUNDING"),
    amount := -450, balance := -50, category := ("Debt Repayment - MCA"), is_debit := true,
    is_true_revenue := false, is_debt_payment := true, debt_type := some ("mca"),
    confidence := 1 }

/-- The monthly-summary row of the C8 counterexample instance. -/
def noRevenueRow : MonthRow :=
  { month := ("2026-02"), starting_balance := -50, num_deposits := 0, total_deposits := 0,
    true_revenue := 0, num_withdrawals := 1, total_withdrawals := 450, mca_debits := 450,
    holdback_pct := 0, ending_balance := -50, avg_balance := -50, neg_days := 1 }

/-! ### Shared lemmas -/

theorem mem_insSorted {le : α → α → Bool} {x a : α} {l : List α} :
    a ∈ insSorted le x l ↔ a = x ∨ a ∈ l := by
  induction l with
  | nil => simp [insSorted]
  | cons y t ih =>
    simp only [insSorted]
    split
    · simp [List.mem_cons]
    · simp only [List.mem_cons, ih]
      tauto

theorem mem_isort {le : α → α → Bool} {a : α} {l : List α} :
    a ∈ isort le l ↔ a ∈ l := by
  induction l with
  | nil => simp [isort]
  | cons y t ih => simp [isort, mem_insSorted, ih]

theorem length_insSorted {le : α → α → Bool} {x : α} {l : List α} :
    (insSorted le x l).length = l.length + 1 := by
  induction l with
  | nil => simp [insSorted]
  | cons y t ih =>
    by_cases h : le x y = true
    · simp [insSorted, h]
    · simp [insSorted, h, ih]

theorem length_isort {le : α → α → Bool} {l : List α} :
    (isort le l).length = l.length := by
  induction l with
  | nil => rfl
  | cons y t ih => simp [isort, length_insSorted, ih]

theorem categorize_eq_of_find {ps : List LearnedPattern} {desc : String} {a : ℚ}
    {p : LearnedPattern} (h : ps.find? (learnedMatch (pyLower desc)) = some p) :
    categorize_transaction desc a ps = (p.category, p.confidence) := by
  simp [categorize_transaction, learnedLookup, h]

theorem categorize_of_matches {ps : List LearnedPattern} {desc : String} {a : ℚ}
    {c : String} {v : ℚ}
    (hex : ∃ q ∈ ps, learnedMatch (pyLower desc) q = true)
    (hall : ∀ q ∈ ps, learnedMatch (pyLower desc) q = true → q.category = c ∧ q.confidence = v) :
    categorize_transaction desc a ps = (c, v) := by
  obtain ⟨q0, hq0, hm0⟩ := hex
  have hfind : ∃ p, ps.find? (learnedMatch (pyLower desc)) = some p := by
    cases hf : ps.find? (learnedMatch (pyLower desc)) with
    | some p => exact ⟨p, rfl⟩
    | none =>
      rw [List.find?_eq_none] at hf
      exact absurd hm0 (hf q0 hq0)
  obtain ⟨p, hp⟩ := hfind
  have hmem := List.mem_of_find?_eq_some hp
  have hmatch := List.find?_some hp
  obtain ⟨hc, hv⟩ := hall p hmem hmatch
  rw [categorize_eq_of_find hp, hc, hv]

theorem pyFloat?_nonneg {s : String} {q : ℚ} (h : pyFloat? s = some q) : 0 ≤ q := by
  unfold pyFloat? at h
  dsimp only at h
  split at h
  · split at h
    · injection h with h
      rw [← h]
      positivity
    · exact absurd h (by simp)
  · split at h
    · injection h with h
      rw [← h]
      positivity
    · exact absurd h (by simp)

/-! ### Claim theorems -/

/-- C1: categorization is total: for every description, amount and
learned-pattern set whose stored categories lie in the closed
enumeration, the returned category is one of the closed enumeration
values, and when no learned pattern and no default keyword matches, a
positive amount yields REVENUE with confidence one half and a
non-positive amount yields OTHER_EXPENSE with confidence one half. -/
theorem categorize_total (desc : String) (a : ℚ) (ps : List LearnedPattern)
    (hcat : ∀ p ∈ ps, p.category ∈ categoryNames) :
    (categorize_transaction desc a ps).1 ∈ categoryNames ∧
    ((∀ p ∈ ps, learnedMatch (pyLower desc) p = false) →
     (∀ kv ∈ CATEGORIES, ∀ w ∈ kv.2, isSubStr w (pyLower desc) = false) →
     categorize_transaction desc a ps =
       if 0 < a then ((("REVENUE") : String), (1 / 2 : ℚ))
       else ((("OTHER_EXPENSE") : String), (1 / 2 : ℚ))) := by
  constructor
  · unfold categorize_transaction learnedLookup defaultLookup
    dsimp only
    cases hf : ps.find? (learnedMatch (pyLower desc)) with
    | some p =>
      simp only [hf]
      exact hcat p (List.mem_of_find?_eq_some hf)
    | none =>
      simp only [hf]
      cases hg : CATEGORIES.find? (fun kv => kv.2.any (fun w => isSubStr w (pyLower desc))) with
      | some kv =>
        simp only [hg]
        exact List.mem_map_of_mem Prod.fst (List.mem_of_find?_eq_some hg)
      | none =>
        simp only [hg]
        split <;> decide
  · intro h1 h2
    have hf : ps.find? (learnedMatch (pyLower desc)) = none :=
      List.find?_eq_none.mpr (fun p hp => by simp [h1 p hp])
    have hg : CATEGORIES.find? (fun kv => kv.2.any (fun w => isSubStr w (pyLower desc))) = none := by
      rw [List.find?_eq_none]
      intro kv hkv
      intro hany
      rw [List.any_eq_true] at hany
      obtain ⟨w, hw, hwt⟩ := hany
      rw [h2 kv hkv w hw] at hwt
      cases hwt
    unfold categorize_transaction learnedLookup defaultLookup
    simp only [hf, hg]

/-- C1 witness: on the description zzz with no learned patterns, nothing
matches and the positive amount 7 falls back to REVENUE at one half. -/
theorem categorize_total_w :
    (∀ p ∈ ([] : List LearnedPattern), p.category ∈ categoryNames) ∧
    (categorize_transaction ("zzz") 7 []).1 ∈ categoryNames ∧
    categorize_transaction ("zzz") 7 [] = ((("REVENUE") : String), (1 / 2 : ℚ)) := by
  refine ⟨by simp, (categorize_total ("zzz") 7 [] (by simp)).1, ?_⟩
  have h := (categorize_total ("zzz") 7 [] (by simp)).2 (by simp) (by decide)
  simpa using h

/-- C2 counterexample: two learned patterns taught at clock 1 and clock
2 both match the description aaa; the code scans them in updated_at
descending order, so the later-taught pattern wins, while a scan in
insertion order would return the earlier one — the two orders give
different categories, refuting the insertion-order conjunct of the
claim. -/
theorem categorize_scan_order_cex :
    categorize_transaction ("aaa") 5
        (get_user_patterns
          (save_learned_pattern (save_learned_pattern [] ("u") ("aaa") ("RENT") 1)
            ("u") ("aa") ("PAYROLL") 2) ("u")) =
      ((("PAYROLL") : String), (1 : ℚ)) ∧
    categorize_transaction ("aaa") 5
        (patternsInInsertionOrder
          (save_learned_pattern (save_learned_pattern [] ("u") ("aaa") ("RENT") 1)
            ("u") ("aa") ("PAYROLL") 2) ("u")) =
      ((("RENT") : String), (1 : ℚ)) ∧
    (("PAYROLL") : String) ≠ ("RENT") := by
  refine ⟨by decide, by decide, by decide⟩

/-- C2 amended: learned patterns strictly precede default keywords, and
among the learned patterns the first match in the order produced by
get_user_patterns — updated_at descending, not insertion order — wins,
regardless of any default-pattern match on the same description. -/
theorem categorize_first_learned_match (db : List LearnedPattern) (uid desc : String) (a : ℚ)
    (p : LearnedPattern)
    (h : (get_user_patterns db uid).find? (learnedMatch (pyLower desc)) = some p) :
    categorize_transaction desc a (get_user_patterns db uid) = (p.category, p.confidence) :=
  categorize_eq_of_find h

/-- C2 amended witness: one learned pattern acme maps to RENT; the
description also contains the default REVENUE keyword deposit, yet the
learned pattern wins. -/
theorem categorize_first_learned_match_w :
    (get_user_patterns [⟨("u"), ("acme"), ("RENT"), 1, 1, 3⟩] ("u")).find?
        (learnedMatch (pyLower ("acme deposit"))) =
      some (⟨("u"), ("acme"), ("RENT"), 1, 1, 3⟩ : LearnedPattern) ∧
    categorize_transaction ("acme deposit") 5
        (get_user_patterns [⟨("u"), ("acme"), ("RENT"), 1, 1, 3⟩] ("u")) =
      ((("RENT") : String), (1 : ℚ)) :=
  ⟨by decide,
   categorize_first_learned_match [⟨("u"), ("acme"), ("RENT"), 1, 1, 3⟩] ("u") ("acme deposit") 5
     (⟨("u"), ("acme"), ("RENT"), 1, 1, 3⟩ : LearnedPattern) (by decide)⟩

/-- C3 counterexample: a line containing the debit keyword payment with
a positive parsed amount is accepted by the extractor, and the produced
amount is the positive 100 — no sign inference forces it negative,
refuting the claim. -/
theorem normalizer_sign_cex :
    isSubStr ("payment") ("01/05 payment to vendor $100.00") = true ∧
    extract_transactions [("01/05 payment to vendor $100.00")] =
      [{ date := ("01/0"), description := ("paymenttovendor"), amount := (100 : ℚ) }] ∧
    ¬((100 : ℚ) < 0) := by
  refine ⟨by decide, by with_unfolding_all decide, by norm_num⟩

/-- C3 amended: the extractor applies no debit-keyword sign inference at
all: every transaction it accepts carries the nonnegative parsed value of
the last dollar-amount capture of its line, whatever keywords the line
contains. -/
theorem extract_amount_nonneg (line : String) (t : RawTxn)
    (h : processLine line = Except.ok (some t)) : 0 ≤ t.amount := by
  unfold processLine at h
  repeat' split at h
  case h_2.h_2.h_1 q hq =>
    by_cases hlen : 3 < (descOf line).length
    · rw [if_pos hlen] at h
      simp only [Except.ok.injEq, Option.some.injEq] at h
      subst h
      exact pyFloat?_nonneg hq
    · rw [if_neg hlen] at h
      simp at h
  all_goals first
    | (simp at h
       done)
    | (by_cases hlen : 3 < (descOf line).length <;> simp [hlen] at h)

/-- C3 amended witness: the accepted keyword-bearing line of the
counterexample indeed yields a nonnegative amount. -/
theorem extract_amount_nonneg_w :
    processLine ("01/05 payment to vendor $100.00") =
      Except.ok
        (some ({ date := ("01/0"), description := ("paymenttovendor"), amount := (100 : ℚ) } :
          RawTxn)) ∧
    (0 : ℚ) ≤
      ({ date := ("01/0"), description := ("paymenttovendor"), amount := (100 : ℚ) } :
        RawTxn).amount :=
  ⟨by with_unfolding_all decide,
   extract_amount_nonneg ("01/05 payment to vendor $100.00")
     { date := ("01/0"), description := ("paymenttovendor"), amount := (100 : ℚ) }
     (by with_unfolding_all decide)⟩

/-- C5: for every transaction list, including the empty one, the health
score is an integer between 0 and 100; the function is total, so no
error path exists. -/
theorem calculate_score_bounds (ts : List V2Txn) :
    0 ≤ calculate_score ts ∧ calculate_score ts ≤ 100 := by
  unfold calculate_score
  split
  · exact ⟨le_refl 0, by norm_num⟩
  · exact ⟨le_max_left 0 _, max_le (by norm_num) (min_le_left _ _)⟩

/-- Auxiliary for C7: when some row matches the user and pattern text,
the bumped registry still contains a row with that pattern text. -/
theorem bumpFirst_keeps_pattern (uid pat : String) (now : Nat) (db : List LearnedPattern)
    (h : db.any (patKey uid pat) = true) :
    ∃ p ∈ bumpFirst uid pat now db, p.pattern = pat := by
  induction db with
  | nil => simp at h
  | cons q t ih =>
    by_cases hq : patKey uid pat q = true
    · refine ⟨{ q with times_used := q.times_used + 1, updated_at := now }, ?_, ?_⟩
      · simp [bumpFirst, hq]
      · have hq2 : q.user_id = uid ∧ q.pattern = pat := by simpa [patKey] using hq
        exact hq2.2
    · simp only [List.any_cons, hq, Bool.false_or] at h
      obtain ⟨p, hp, hpat⟩ := ih h
      exact ⟨p, by simp [bumpFirst, hq, hp], hpat⟩

/-- C7 counterexample: teaching the empty pattern directly through the
save routine inserts a row whose pattern text is empty and returns
normally — no InvalidPatternError exists and the registry does change,
refuting the claim. -/
theorem save_empty_pattern_cex :
    save_learned_pattern [] ("u") ("") ("RENT") 5 =
      [{ user_id := ("u"), pattern := (""), category := ("RENT"), times_used := 1,
         confidence := 1, updated_at := 5 }] ∧
    ∃ p ∈ save_learned_pattern [] ("u") ("") ("RENT") 5, p.pattern = ("") := by
  refine ⟨by decide, by decide⟩

/-- C7 amended: the save routine performs no validation and raises
nothing: called with empty pattern text it stores or bumps a row with
empty pattern text; the only guard lives in the UI handler, which skips
the save call on an empty input, leaving the registry unchanged without
any error type being involved. -/
theorem teach_empty_behavior (db : List LearnedPattern) (uid cat : String) (now : Nat) :
    ui_add_pattern db uid ("") cat now = db ∧
    ∃ p ∈ save_learned_pattern db uid ("") cat now, p.pattern = ("") := by
  constructor
  · simp [ui_add_pattern]
  · unfold save_learned_pattern
    split
    · exact bumpFirst_keeps_pattern uid ("") now db (by assumption)
    · exact ⟨_, List.mem_append_right _ (List.mem_singleton_self _), rfl⟩

/-- C9: with total revenue fixed and positive, a transaction set with at
least as many debt payments never gets a larger debt-burden score
contribution: the step deduction is monotone in the debt total. -/
theorem debt_burden_monotone (t1 t2 : List V2Txn)
    (hrev : revenueOf t1 = revenueOf t2) (hpos : 0 < revenueOf t1)
    (hd : debtOf t1 ≤ debtOf t2) :
    debt_burden_score t2 ≤ debt_burden_score t1 := by
  unfold debt_burden_score debtDeduction
  dsimp only
  have hpos2 : 0 < revenueOf t2 := hrev ▸ hpos
  rw [if_pos hpos, if_pos hpos2, ← hrev]
  have hr : debtOf t1 / revenueOf t1 ≤ debtOf t2 / revenueOf t1 :=
    (div_le_div_iff_of_pos_right hpos).mpr hd
  split_ifs <;> first
    | (norm_num
       done)
    | linarith

/-- C9 witness: adding a 50-unit loan payment to a 100-unit revenue set
keeps revenue fixed, raises the debt total and lowers the debt-burden
contribution. -/
theorem debt_burden_monotone_w :
    revenueOf [⟨("01/01"), ("stripe xfer"), 100, ("REVENUE"), 1⟩] =
      revenueOf [⟨("01/01"), ("stripe xfer"), 100, ("REVENUE"), 1⟩,
        ⟨("01/02"), ("ally loan"), -50, ("LOAN_PAYMENT"), 1⟩] ∧
    (0 : ℚ) < revenueOf [⟨("01/01"), ("stripe xfer"), 100, ("REVENUE"), 1⟩] ∧
    debtOf [⟨("01/01"), ("stripe xfer"), 100, ("REVENUE"), 1⟩] ≤
      debtOf [⟨("01/01"), ("stripe xfer"), 100, ("REVENUE"), 1⟩,
        ⟨("01/02"), ("ally loan"), -50, ("LOAN_PAYMENT"), 1⟩] ∧
    debt_burden_score [⟨("01/01"), ("stripe xfer"), 100, ("REVENUE"), 1⟩,
        ⟨("01/02"), ("ally loan"), -50, ("LOAN_PAYMENT"), 1⟩] ≤
      debt_burden_score [⟨("01/01"), ("stripe xfer"), 100, ("REVENUE"), 1⟩] :=
  ⟨by with_unfolding_all decide, by with_unfolding_all decide, by with_unfolding_all decide,
   debt_burden_monotone
     [⟨("01/01"), ("stripe xfer"), 100, ("REVENUE"), 1⟩]
     [⟨("01/01"), ("stripe xfer"), 100, ("REVENUE"), 1⟩,
      ⟨("01/02"), ("ally loan"), -50, ("LOAN_PAYMENT"), 1⟩]
     (by with_unfolding_all decide) (by with_unfolding_all decide)
     (by with_unfolding_all decide)⟩

/-- Auxiliary for C10: a successful first-match query splits the list
into an unmatched prefix, the found row, and the rest. -/
theorem find?_split {α : Type} {p : α → Bool} {l : List α} {a : α}
    (h : l.find? p = some a) :
    ∃ pre post, l = pre ++ a :: post ∧ ∀ x ∈ pre, p x = false := by
  induction l with
  | nil => simp at h
  | cons x t ih =>
    rw [List.find?_cons] at h
    split at h
    · injection h with h
      subst h
      exact ⟨[], t, rfl, by simp⟩
    · obtain ⟨pre, post, heq, hpre⟩ := ih h
      next hx =>
        refine ⟨x :: pre, post, by simp [heq], ?_⟩
        intro y hy
        rcases List.mem_cons.mp hy with h1 | h2
        · subst h1
          simpa using hx
        · exact hpre y h2

/-- Auxiliary for C10: bumping the registry at a split position rewrites
exactly the found row and nothing else. -/
theorem bumpFirst_split (uid pat : String) (now : Nat) (pre post : List LearnedPattern)
    (e : LearnedPattern) (hpre : ∀ x ∈ pre, patKey uid pat x = false)
    (he : patKey uid pat e = true) :
    bumpFirst uid pat now (pre ++ e :: post) =
      pre ++ { e with times_used := e.times_used + 1, updated_at := now } :: post := by
  induction pre with
  | nil => simp [bumpFirst, he]
  | cons x t ih =>
    have hx := hpre x (by simp)
    simp only [List.cons_append, bumpFirst, hx, Bool.false_eq_true, if_false, List.append_eq]
    rw [ih (fun y hy => hpre y (by simp [hy]))]

/-- C10: re-teaching an existing pattern text with a different category
leaves the stored row's category and confidence unchanged, increments
only its times_used and refreshes its updated_at, touches no other row
and adds none, so the new category is discarded; and as long as every
registry row matching a description agrees with the stored row's
category and confidence, categorization of that description after the
re-teach still returns the originally learned category. -/
theorem reteach_frame (db : List LearnedPattern) (uid pat cat2 : String) (now : Nat)
    (e : LearnedPattern) (h : db.find? (patKey uid pat) = some e) :
    (∃ pre post,
      db = pre ++ e :: post ∧
      (∀ x ∈ pre, patKey uid pat x = false) ∧
      save_learned_pattern db uid pat cat2 now =
        pre ++ { e with times_used := e.times_used + 1, updated_at := now } :: post) ∧
    (∀ desc : String, ∀ a : ℚ,
      learnedMatch (pyLower desc) e = true →
      (∀ q ∈ db, learnedMatch (pyLower desc) q = true →
        q.category = e.category ∧ q.confidence = e.confidence) →
      categorize_transaction desc a
          (get_user_patterns (save_learned_pattern db uid pat cat2 now) uid) =
        (e.category, e.confidence)) := by
  have he : patKey uid pat e = true := List.find?_some h
  have hmem : e ∈ db := List.mem_of_find?_eq_some h
  have hany : db.any (patKey uid pat) = true := List.any_eq_true.mpr ⟨e, hmem, he⟩
  obtain ⟨pre, post, hdb, hpre⟩ := find?_split h
  have hsave : save_learned_pattern db uid pat cat2 now =
      pre ++ { e with times_used := e.times_used + 1, updated_at := now } :: post := by
    unfold save_learned_pattern
    rw [if_pos hany, hdb]
    exact bumpFirst_split uid pat now pre post e hpre he
  refine ⟨⟨pre, post, hdb, hpre, hsave⟩, ?_⟩
  intro desc a hm hall
  have heuid : e.user_id = uid := by
    have := (by simpa [patKey] using he : e.user_id = uid ∧ e.pattern = pat)
    exact this.1
  set e2 : LearnedPattern := { e with times_used := e.times_used + 1, updated_at := now } with he2
  have hm2 : learnedMatch (pyLower desc) e2 = true := hm
  have he2mem : e2 ∈ get_user_patterns (save_learned_pattern db uid pat cat2 now) uid := by
    rw [hsave]
    unfold get_user_patterns
    rw [mem_isort, List.mem_filter]
    refine ⟨by simp, by simp [heuid]⟩
  apply categorize_of_matches ⟨e2, he2mem, hm2⟩
  intro q hq hqm
  rw [hsave] at hq
  unfold get_user_patterns at hq
  rw [mem_isort, List.mem_filter] at hq
  rcases List.mem_append.mp hq.1 with hq1 | hq2
  · exact hall q (by rw [hdb]; exact List.mem_append_left _ hq1) hqm
  · rcases List.mem_cons.mp hq2 with hq3 | hq4
    · subst hq3
      exact ⟨rfl, rfl⟩
    · exact hall q (by rw [hdb]; exact List.mem_append_right _ (List.mem_cons_of_mem _ hq4)) hqm

/-- C10 witness: re-teaching acme (stored as RENT) with category PAYROLL
leaves lookups returning RENT with the original confidence. -/
theorem reteach_frame_w :
    categorize_transaction ("acme corp") 5
        (get_user_patterns
          (save_learned_pattern [⟨("u"), ("acme"), ("RENT"), 3, 1, 1⟩]
            ("u") ("acme") ("PAYROLL") 9) ("u")) =
      ((("RENT") : String), (1 : ℚ)) :=
  (reteach_frame [⟨("u"), ("acme"), ("RENT"), 3, 1, 1⟩] ("u") ("acme") ("PAYROLL") 9
      (⟨("u"), ("acme"), ("RENT"), 3, 1, 1⟩ : LearnedPattern) (by decide)).2
    ("acme corp") 5 (by decide) (by decide)

/-- C4 counterexample: a single debt payment forms a one-transaction
group, and the debt summary still emits a row for it carrying the
defaulted frequency monthly — single-occurrence groups do appear in the
output, refuting the claim. -/
theorem debt_summary_single_cex :
    calculate_debt_summary [oneDebtTxn] = [oneDebtRow] ∧
    oneDebtRow.count = 1 ∧ oneDebtRow.frequency = ("monthly") := by
  refine ⟨by with_unfolding_all decide, by decide, by decide⟩

/-- C4 amended: a one-transaction description group does appear in the
debt-summary output, but with the defaulted frequency monthly and the
mean absolute amount as its estimate; only groups of two or more get a
gap-based frequency. -/
theorem debt_summary_single_default (df : List DemoTxn) (row : DebtRow)
    (hrow : row ∈ calculate_debt_summary df) (h1 : row.count = 1) :
    row.frequency = ("monthly") ∧ row.est_monthly = row.avg_amount := by
  simp only [calculate_debt_summary, List.mem_map] at hrow
  obtain ⟨l, hl, hrow⟩ := hrow
  subst hrow
  have h1' : ((df.filter (fun t => t.is_debt_payment)).filter
      (fun t => decide (t.description = l))).length = 1 := h1
  have hlen : ¬ 2 ≤ (isort intLe (((df.filter (fun t => t.is_debt_payment)).filter
      (fun t => decide (t.description = l))).map (fun t => t.date.ord))).length := by
    rw [length_isort, List.length_map, h1']
    norm_num
  unfold debtRowFor
  dsimp only
  rw [if_neg hlen]
  exact ⟨rfl, rfl⟩

/-- C4 amended witness: the single-payment instance yields one row with
frequency monthly and estimate equal to its average amount. -/
theorem debt_summary_single_default_w :
    oneDebtRow ∈ calculate_debt_summary [oneDebtTxn] ∧ oneDebtRow.count = 1 ∧
    (oneDebtRow.frequency = ("monthly") ∧ oneDebtRow.est_monthly = oneDebtRow.avg_amount) :=
  ⟨by with_unfolding_all decide, by decide,
   debt_summary_single_default [oneDebtTxn] oneDebtRow (by with_unfolding_all decide)
     (by decide)⟩

/-- C6: every debt-summary row whose group has at least two members
carries the frequency selected by the mean consecutive day-gap of the
ascending-sorted dates — daily at most 2, weekly at most 9, monthly
otherwise — and the estimated monthly amount scales the mean absolute
amount by 22, 4 or 1 accordingly. -/
theorem debt_summary_frequency (df : List DemoTxn) (row : DebtRow)
    (hrow : row ∈ calculate_debt_summary df) (h2 : 2 ≤ row.count) :
    row.frequency = (if meanGap (debtGroup df row.lender) ≤ 2 then ("daily" : String)
      else if meanGap (debtGroup df row.lender) ≤ 9 then ("weekly") else ("monthly")) ∧
    row.est_monthly = (if meanGap (debtGroup df row.lender) ≤ 2 then
        meanAbs (debtGroup df row.lender) * 22
      else if meanGap (debtGroup df row.lender) ≤ 9 then meanAbs (debtGroup df row.lender) * 4
      else meanAbs (debtGroup df row.lender)) := by
  simp only [calculate_debt_summary, List.mem_map] at hrow
  obtain ⟨l, hl, hrow⟩ := hrow
  subst hrow
  have h2' : 2 ≤ ((df.filter (fun t => t.is_debt_payment)).filter
      (fun t => decide (t.description = l))).length := h2
  have hlen : 2 ≤ (isort intLe (((df.filter (fun t => t.is_debt_payment)).filter
      (fun t => decide (t.description = l))).map (fun t => t.date.ord))).length := by
    rw [length_isort, List.length_map]
    exact h2'
  unfold debtRowFor meanGap meanAbs debtGroup
  dsimp only
  rw [if_pos hlen]
  constructor <;> split_ifs <;> rfl

/-- C6 witness: the two FUNDBOX debits fourteen days apart give mean gap
14, hence frequency monthly and estimate equal to the mean amount 450. -/
theorem debt_summary_frequency_w :
    twoDebtRow ∈ calculate_debt_summary twoDebtTxns ∧ 2 ≤ twoDebtRow.count ∧
    (twoDebtRow.frequency =
        (if meanGap (debtGroup twoDebtTxns twoDebtRow.lender) ≤ 2 then ("daily" : String)
         else if meanGap (debtGroup twoDebtTxns twoDebtRow.lender) ≤ 9 then ("weekly")
         else ("monthly")) ∧
     twoDebtRow.est_monthly =
        (if meanGap (debtGroup twoDebtTxns twoDebtRow.lender) ≤ 2 then
           meanAbs (debtGroup twoDebtTxns twoDebtRow.lender) * 22
         else if meanGap (debtGroup twoDebtTxns twoDebtRow.lender) ≤ 9 then
           meanAbs (debtGroup twoDebtTxns twoDebtRow.lender) * 4
         else meanAbs (debtGroup twoDebtTxns twoDebtRow.lender))) :=
  ⟨by with_unfolding_all decide, by decide,
   debt_summary_frequency twoDebtTxns twoDebtRow (by with_unfolding_all decide) (by decide)⟩

/-- C8 counterexample: in a month with a 450 MCA debit and no true
revenue the code leaves the holdback percentage at 0, while the claimed
floor-guarded formula would give 45000 — the two disagree, refuting the
claim. -/
theorem holdback_zero_revenue_cex :
    calculate_monthly_summary [noRevenueTxn] = [noRevenueRow] ∧
    noRevenueRow.mca_debits = 450 ∧ noRevenueRow.true_revenue = 0 ∧
    noRevenueRow.holdback_pct = 0 ∧
    noRevenueRow.mca_debits / max noRevenueRow.true_revenue 1 * 100 = 45000 ∧
    (0 : ℚ) ≠ 45000 := by
  refine ⟨by with_unfolding_all decide, by decide, by decide, by decide,
    by norm_num [noRevenueRow], by norm_num⟩

/-- C8 amended: every monthly-summary row's holdback percentage equals
MCA debits over true revenue times 100 when the month's true revenue is
positive, and 0 otherwise — there is no floor of the denominator at 1. -/
theorem holdback_formula (df : List DemoTxn) (row : MonthRow)
    (hrow : row ∈ calculate_monthly_summary df) :
    row.holdback_pct =
      (if 0 < row.true_revenue then row.mca_debits / row.true_revenue * 100 else 0) := by
  simp only [calculate_monthly_summary, List.mem_map] at hrow
  obtain ⟨m, hm, hrow⟩ := hrow
  subst hrow
  rfl

/-- C8 amended witness: the month with 1000 true revenue and a 450 MCA
debit carries holdback 45. -/
theorem holdback_formula_w :
    oneMonthRow ∈ calculate_monthly_summary oneMonthTxns ∧
    oneMonthRow.holdback_pct =
      (if 0 < oneMonthRow.true_revenue then
        oneMonthRow.mca_debits / oneMonthRow.true_revenue * 100
       else 0) :=
  ⟨by with_unfolding_all decide,
   holdback_formula oneMonthTxns oneMonthRow (by with_unfolding_all decide)⟩
